import Mathlib

/-!
Verification of the AgriBot chat core of the Vriddhi farm-management
application: the keyword intent classifier (`detectIntent`), the template
response generator (`getBotResponse`), the chat-session log
(`ChatLog.addMessage`) and the message-handler flow that ties them
together.

Modelling conventions:
* JavaScript strings are lists of characters (`Str`); `String.prototype.includes`
  is contiguous-substring containment (`List.IsInfix`), and
  `String.prototype.toLowerCase` is `Char.toLower` mapped over the list
  (faithful on the ASCII range, which is all the keyword tables use).
* JavaScript numbers are embedded as exact rationals (`ℚ`); `toFixed(0)` is
  nearest-integer rounding with ties rounded up, matching the ECMA-262
  definition on non-negative values.
* `Math.floor(Math.random() * n)` is modelled by an explicit index
  parameter `rnd`, the value drawn by the hidden generator.
-/

set_option maxHeartbeats 1000000
set_option maxRecDepth 100000

/-- JavaScript strings, modelled as lists of characters. -/
abbrev Str := List Char

/-- A string literal of the source, as a character list. -/
def enc (s : String) : Str := s.data

/-- Model of JavaScript `s.toLowerCase()` on the ASCII range: `Char.toLower`
maps `A`-`Z` to `a`-`z` and fixes every other character. -/
def lowerStr (s : Str) : Str := s.map Char.toLower

/-- Model of JavaScript `s.includes(k)`: `k` occurs in `s` as a contiguous
substring. -/
def sIncludes (s k : Str) : Prop := k <:+: s

instance (s k : Str) : Decidable (sIncludes s k) := by
  unfold sIncludes
  infer_instance

/-- The closed enumeration of chat intents (spec §3).  In the source the
intents are the string values returned by `detectIntent`
(`"disease_detection"`, `"irrigation_advice"`, `"fertilizer_recommendation"`,
`"weather_query"`, `"harvest_timing"`, `"treatment_advice"`, `"help_request"`,
`"general_query"`); `trendInquiry` names the trend/statistics reply branch of
`getBotResponse`, which has no counterpart string in `detectIntent`. -/
inductive Intent where
  | diseaseDetection
  | irrigationAdvice
  | fertilizerRecommendation
  | weatherQuery
  | harvestTiming
  | trendInquiry
  | treatmentAdvice
  | helpRequest
  | generalQuery
deriving DecidableEq, Repr

/-- Embedding of `detectIntent` (src/unnamed/part_001, lines 372-392): the
helper that tags the logged bot message.  Note its rule table: there is no
trend/statistics rule, and the last rule tests only `"help"`. -/
def detectIntent (message : Str) : Intent :=
  let msg := lowerStr message
  if sIncludes msg (enc "disease") ∨ sIncludes msg (enc "sick") ∨
      sIncludes msg (enc "problem") then .diseaseDetection
  else if sIncludes msg (enc "water") ∨ sIncludes msg (enc "irrigation") then
    .irrigationAdvice
  else if sIncludes msg (enc "fertilizer") ∨ sIncludes msg (enc "nutrients") then
    .fertilizerRecommendation
  else if sIncludes msg (enc "weather") ∨ sIncludes msg (enc "rain") then
    .weatherQuery
  else if sIncludes msg (enc "harvest") ∨ sIncludes msg (enc "ready") then
    .harvestTiming
  else if sIncludes msg (enc "treatment") ∨ sIncludes msg (enc "cure") then
    .treatmentAdvice
  else if sIncludes msg (enc "help") then .helpRequest
  else .generalQuery

/-- The stats bundle of the user document read by `getBotResponse`
(`stats?.diseasesDetected`, `stats?.treatmentsApplied`); each field may be
absent in the stored document. -/
structure Stats where
  diseasesDetected : Option Nat
  treatmentsApplied : Option Nat

/-- The farm-details bundle read by `getBotResponse`.  `cropTypeNames` lists
the `name` of each entry of `farmDetails.cropTypes`; the optional-chaining
accesses `location?.city`, `irrigationType` and `soilType` are collapsed to
optional strings (the code cannot distinguish at which link the chain was
undefined). -/
structure FarmDetails where
  cropTypeNames : List Str
  locationCity : Option Str
  irrigationType : Option Str
  soilType : Option Str

/-- The user context passed to `getBotResponse` (the fields of the user
document it reads; both bundles may be absent). -/
structure UserContext where
  farmDetails : Option FarmDetails
  stats : Option Stats

/-- The everywhere-absent context (a user document with neither farm details
nor stats). -/
def emptyContext : UserContext := ⟨none, none⟩

/-- JavaScript `v || d` for an optional string: an absent value and the empty
string are both falsy and fall back to the default `d`. -/
def strOr (v : Option Str) (d : Str) : Str :=
  match v with
  | none => d
  | some s => if s = [] then d else s

/-- `farmDetails?.cropTypes?.[0]?.name || "crops"` (part_001 line 17). -/
def cropTypeOf (ctx : UserContext) : Str :=
  strOr (ctx.farmDetails.bind fun fd => fd.cropTypeNames.head?) (enc "crops")

/-- `farmDetails?.location?.city || "your area"` (part_001 line 18). -/
def locationOf (ctx : UserContext) : Str :=
  strOr (ctx.farmDetails.bind fun fd => fd.locationCity) (enc "your area")

/-- `farmDetails?.irrigationType || "your irrigation system"` (line 33). -/
def irrigationTypeOf (ctx : UserContext) : Str :=
  strOr (ctx.farmDetails.bind fun fd => fd.irrigationType)
    (enc "your irrigation system")

/-- `farmDetails?.soilType || "detected soil"` (line 40). -/
def soilTypeOf (ctx : UserContext) : Str :=
  strOr (ctx.farmDetails.bind fun fd => fd.soilType) (enc "detected soil")

/-- The number the code compares and interpolates for
`stats?.diseasesDetected`: an absent bundle or field behaves like 0 in every
use the code makes of it (`undefined > 0` is false, `undefined || 0` is 0). -/
def diseasesDetectedOf (ctx : UserContext) : Nat :=
  match ctx.stats with
  | none => 0
  | some st => st.diseasesDetected.getD 0

/-- The number the code compares for `stats?.treatmentsApplied` (an absent
bundle or field behaves like 0: `undefined > 0` is false). -/
def treatmentsAppliedOf (ctx : UserContext) : Nat :=
  match ctx.stats with
  | none => 0
  | some st => st.treatmentsApplied.getD 0

/-- JavaScript `q.toFixed(0)` for a non-negative rational: the nearest
integer, ties rounded up (ECMA-262 picks the larger candidate). -/
def toFixed0 (q : ℚ) : Nat := (⌊q + 1 / 2⌋).toNat

/-- A natural number rendered as its decimal numeral. -/
def natStr (n : Nat) : Str := enc (Nat.repr n)

/-- The detection-accuracy ternary of the disease branch (lines 26-29):
`stats?.diseasesDetected > 0 ? "92%" : "new - let's start building your
success rate!"`. -/
def detectionRateFigure (ctx : UserContext) : Str :=
  if diseasesDetectedOf ctx > 0 then enc "92%"
  else enc "new - let's start building your success rate!"

/-- The treatment-success ternary of the treatment branch (lines 58-63):
`stats?.treatmentsApplied > 0 ? ((treatmentsApplied / (diseasesDetected || 1))
* 100).toFixed(0) + "%" : "just getting started"`. -/
def treatmentRateFigure (ctx : UserContext) : Str :=
  if treatmentsAppliedOf ctx > 0 then
    natStr (toFixed0 ((treatmentsAppliedOf ctx : ℚ) /
      (if diseasesDetectedOf ctx = 0 then 1 else diseasesDetectedOf ctx) * 100))
      ++ enc "%"
  else enc "just getting started"

/-- The disease-detection reply template (part_001 lines 25-29). -/
def diseaseResponse (ctx : UserContext) : Str :=
  enc "I can help you identify " ++ cropTypeOf ctx ++
  enc " diseases! Upload a photo of the affected plant leaves, and I'll analyze it for common diseases. Based on recent data in " ++
  locationOf ctx ++
  enc ", leaf blight is trending. Your disease detection accuracy rate is " ++
  detectionRateFigure ctx ++ enc "."

/-- The irrigation reply template (part_001 lines 33-35). -/
def irrigationResponse (ctx : UserContext) : Str :=
  enc "Based on weather data for " ++ locationOf ctx ++ enc " and your " ++
  irrigationTypeOf ctx ++
  enc ", I recommend adjusting your watering schedule. With current conditions, " ++
  cropTypeOf ctx ++
  enc " typically needs watering every 3-4 days. I'll factor in the 65% rain chance this week."

/-- The fertilizer reply template (part_001 lines 39-41). -/
def fertilizerResponse (ctx : UserContext) : Str :=
  enc "For " ++ cropTypeOf ctx ++
  enc ", I suggest nitrogen-rich fertilizers during vegetative stage. Your soil type (" ++
  soilTypeOf ctx ++
  enc ") shows good phosphorus levels but could benefit from additional potassium. Want specific product recommendations?"

/-- The weather reply template (part_001 line 45). -/
def weatherResponse (ctx : UserContext) : Str :=
  enc "Weather update for " ++ locationOf ctx ++
  enc ": 65% chance of rain, low drought risk (15%). Perfect conditions for " ++
  cropTypeOf ctx ++
  enc " with 78% optimal growing conditions! Temperature is ideal for growth."

/-- The harvest reply template (part_001 line 49). -/
def harvestResponse (ctx : UserContext) : Str :=
  enc "Your " ++ cropTypeOf ctx ++
  enc " will be ready for harvest in approximately 3 months based on your planting date. Growth monitoring shows 15-20% higher yield potential than average. I'll send notifications when optimal harvest time approaches."

/-- The trend reply template (part_001 line 53). -/
def trendResponse (ctx : UserContext) : Str :=
  enc "Disease trends in " ++ locationOf ctx ++
  enc " show a 30% decrease this month! " ++ cropTypeOf ctx ++
  enc " leaf blight cases are down, but watch for root rot in wet areas. Check your Disease Trends dashboard for detailed analytics."

/-- The treatment reply template (part_001 lines 57-64). -/
def treatmentResponse (ctx : UserContext) : Str :=
  enc "For current disease cases, copper fungicide shows 92% effectiveness for leaf blight. Biological treatments work well for root rot. Your treatment success rate is " ++
  treatmentRateFigure ctx ++ enc "!"

/-- The help reply template (part_001 lines 68-78). -/
def helpResponse (ctx : UserContext) : Str :=
  enc "I'm your AI farming assistant! I can help with:\n• Disease identification from photos (" ++
  natStr (diseasesDetectedOf ctx) ++
  enc " analyzed so far)\n• Irrigation scheduling based on " ++ locationOf ctx ++
  enc " weather\n• Fertilizer recommendations for " ++ cropTypeOf ctx ++
  enc "\n• Harvest timing predictions\n• Treatment effectiveness analysis\n• Disease trend monitoring in your region\n\nWhat farming challenge can I help you solve today?"

/-- The `contextualResponses` fallback pool (part_001 lines 82-87), in array
order. -/
def contextualResponses (ctx : UserContext) : List Str :=
  [enc "Tell me more about your " ++ cropTypeOf ctx ++
     enc " farming challenges in " ++ locationOf ctx ++ enc "!",
   enc "I'm here to help with your agricultural needs. Are you dealing with any plant diseases, irrigation concerns, or growth issues with your " ++
     cropTypeOf ctx ++ enc "?",
   enc "What specific challenge can I help you solve on your farm today? I have data on " ++
     cropTypeOf ctx ++ enc " best practices.",
   enc "I'd be happy to help! Your farm in " ++ locationOf ctx ++
     enc " might be facing seasonal challenges - what's your main concern?"]

/-- Embedding of `getBotResponse` (src/unnamed/part_001, lines 12-92): the
keyword-guarded reply chain.  The index drawn by
`Math.floor(Math.random() * contextualResponses.length)` in the default
branch is the explicit parameter `rnd`. -/
def getBotResponse (message : Str) (userContext : UserContext) (rnd : Nat) : Str :=
  let msg := lowerStr message
  if sIncludes msg (enc "disease") ∨ sIncludes msg (enc "sick") ∨
      sIncludes msg (enc "problem") then diseaseResponse userContext
  else if sIncludes msg (enc "water") ∨ sIncludes msg (enc "irrigation") then
    irrigationResponse userContext
  else if sIncludes msg (enc "fertilizer") ∨ sIncludes msg (enc "nutrients") then
    fertilizerResponse userContext
  else if sIncludes msg (enc "weather") ∨ sIncludes msg (enc "rain") then
    weatherResponse userContext
  else if sIncludes msg (enc "harvest") ∨ sIncludes msg (enc "ready") then
    harvestResponse userContext
  else if sIncludes msg (enc "trend") ∨ sIncludes msg (enc "statistics") then
    trendResponse userContext
  else if sIncludes msg (enc "treatment") ∨ sIncludes msg (enc "cure") then
    treatmentResponse userContext
  else if sIncludes msg (enc "help") ∨ sIncludes msg (enc "what can you do") then
    helpResponse userContext
  else (contextualResponses userContext).getD rnd []

/-- The branch of `getBotResponse` that produces the reply, named as an
intent: the same guard chain as `getBotResponse`, including the
trend/statistics branch and the `"what can you do"` alternative that
`detectIntent` lacks. -/
def replyIntent (message : Str) : Intent :=
  let msg := lowerStr message
  if sIncludes msg (enc "disease") ∨ sIncludes msg (enc "sick") ∨
      sIncludes msg (enc "problem") then .diseaseDetection
  else if sIncludes msg (enc "water") ∨ sIncludes msg (enc "irrigation") then
    .irrigationAdvice
  else if sIncludes msg (enc "fertilizer") ∨ sIncludes msg (enc "nutrients") then
    .fertilizerRecommendation
  else if sIncludes msg (enc "weather") ∨ sIncludes msg (enc "rain") then
    .weatherQuery
  else if sIncludes msg (enc "harvest") ∨ sIncludes msg (enc "ready") then
    .harvestTiming
  else if sIncludes msg (enc "trend") ∨ sIncludes msg (enc "statistics") then
    .trendInquiry
  else if sIncludes msg (enc "treatment") ∨ sIncludes msg (enc "cure") then
    .treatmentAdvice
  else if sIncludes msg (enc "help") ∨ sIncludes msg (enc "what can you do") then
    .helpRequest
  else .generalQuery

/-- The template of `getBotResponse` that belongs to each intent
(`ResponseComposer` of spec §4.2); for `generalQuery` the `rnd` index picks
from the fallback pool. -/
def compose (intent : Intent) (ctx : UserContext) (rnd : Nat) : Str :=
  match intent with
  | .diseaseDetection => diseaseResponse ctx
  | .irrigationAdvice => irrigationResponse ctx
  | .fertilizerRecommendation => fertilizerResponse ctx
  | .weatherQuery => weatherResponse ctx
  | .harvestTiming => harvestResponse ctx
  | .trendInquiry => trendResponse ctx
  | .treatmentAdvice => treatmentResponse ctx
  | .helpRequest => helpResponse ctx
  | .generalQuery => (contextualResponses ctx).getD rnd []

/-- One rule of the spec's matching policy (§4.1): a keyword set paired with
the intent it selects. -/
abbrev IntentRule := List Str × Intent

/-- A rule fires when the (already lower-cased) text contains any keyword of
its set. -/
def ruleMatches (msg : Str) (r : IntentRule) : Prop :=
  ∃ k ∈ r.1, sIncludes msg k

instance (msg : Str) (r : IntentRule) : Decidable (ruleMatches msg r) := by
  unfold ruleMatches
  infer_instance

/-- First-match evaluation of an ordered rule list over lower-cased text:
rules are tried top-to-bottom and the first firing rule's intent wins. -/
def firstMatch (msg : Str) : List IntentRule → Intent
  | [] => .generalQuery
  | r :: rs => if ruleMatches msg r then r.2 else firstMatch msg rs

/-- The spec's matching policy (§4.1): lower-case the input, then evaluate an
ordered rule list top-to-bottom by first match, defaulting to
`generalQuery`. -/
def runRules (rules : List IntentRule) (text : Str) : Intent :=
  firstMatch (lowerStr text) rules

/-- The ordered eight-rule keyword table the spec (§4.1) gives for
`classify`, written from the spec's words for comparison with
`detectIntent`. -/
def specRules : List IntentRule :=
  [([enc "disease", enc "sick", enc "problem"], .diseaseDetection),
   ([enc "water", enc "irrigation"], .irrigationAdvice),
   ([enc "fertilizer", enc "nutrients"], .fertilizerRecommendation),
   ([enc "weather", enc "rain"], .weatherQuery),
   ([enc "harvest", enc "ready"], .harvestTiming),
   ([enc "trend", enc "statistics"], .trendInquiry),
   ([enc "treatment", enc "cure"], .treatmentAdvice),
   ([enc "help", enc "what can you do"], .helpRequest)]

/-- The spec's classifier: the eight-rule table under the spec's matching
policy. -/
def specClassify (text : Str) : Intent := runRules specRules text

/-- The rule table `detectIntent` actually implements: the spec's table
without the trend/statistics rule, and with `"help"` as the only keyword of
the last rule. -/
def detectIntentRules : List IntentRule :=
  [([enc "disease", enc "sick", enc "problem"], .diseaseDetection),
   ([enc "water", enc "irrigation"], .irrigationAdvice),
   ([enc "fertilizer", enc "nutrients"], .fertilizerRecommendation),
   ([enc "weather", enc "rain"], .weatherQuery),
   ([enc "harvest", enc "ready"], .harvestTiming),
   ([enc "treatment", enc "cure"], .treatmentAdvice),
   ([enc "help"], .helpRequest)]

/-- The metadata object the chat route attaches to a logged message.  The
schema's unused `entities` and `relatedDiseaseId` fields (never set by the
route) are omitted. -/
structure MessageMetadata where
  intent : Option Intent
  confidence : Option ℚ

/-- The metadata default `{}` of `addMessage` (all fields absent). -/
def noMetadata : MessageMetadata := ⟨none, none⟩

/-- One entry of `ChatLog.messages` (src/unnamed/part_000, lines 231-260);
the wall-clock `timestamp` field is outside the model. -/
structure ChatMessage where
  sender : Str
  message : Str
  messageType : Str
  metadata : MessageMetadata

/-- The fields of the ChatLog document the chat flow reads and writes: the
transcript array and the `totalMessages` counter. -/
structure ChatLog where
  messages : List ChatMessage
  totalMessages : Nat

/-- Embedding of `ChatLogSchema.methods.addMessage` (src/unnamed/part_000,
lines 307-322): push the new entry, then set `totalMessages` to the array's
length (the `save` call is the external store's side). -/
def ChatLog.addMessage (log : ChatLog) (sender message messageType : Str)
    (metadata : MessageMetadata) : ChatLog :=
  let messages := log.messages ++ [⟨sender, message, messageType, metadata⟩]
  { messages := messages, totalMessages := messages.length }

/-- The chat effects of `POST /api/chat/message` (src/unnamed/part_001,
lines 150-171) on the session document: append the user message (line 151),
compute the reply (line 154), then append the bot message tagged with
`detectIntent` and confidence 0.85 (line 159; the delayed callback closes
over the already-computed reply). -/
def handleMessage (chatSession : ChatLog) (message messageType : Str)
    (user : UserContext) (rnd : Nat) : ChatLog × Str :=
  let afterUser := chatSession.addMessage (enc "user") message messageType noMetadata
  let botResponse := getBotResponse message user rnd
  let afterBot := afterUser.addMessage (enc "bot") botResponse (enc "text")
    ⟨some (detectIntent message), some (85 / 100 : ℚ)⟩
  (afterBot, botResponse)

/-- The three chat-visible steps of the `POST /api/chat/message` handler. -/
inductive ChatEvent where
  | appendUserMessage
  | computeBotResponse
  | appendBotMessage
deriving DecidableEq, Repr

/-- Program order of those steps in the handler (src/unnamed/part_001):
line 151 appends the user message, line 154 computes the bot response, and
line 159 — inside the delayed callback, which receives the reply already
computed — appends the bot message. -/
def messageHandlerOrder : List ChatEvent :=
  [.appendUserMessage, .computeBotResponse, .appendBotMessage]

/-- The context of spec test 4: crop `"rice"`, city `"Pune"`, zero diseases
detected. -/
def ricePuneContext : UserContext :=
  ⟨some ⟨[enc "rice"], some (enc "Pune"), none, none⟩, some ⟨some 0, none⟩⟩

/-- The stats of spec test 5: 4 diseases detected, 2 treatments applied. -/
def treatmentStatsContext : UserContext :=
  ⟨none, some ⟨some 4, some 2⟩⟩

/-- The treatment-success figure as the spec words it: round the percentage
`treatmentsApplied / max(diseasesDetected, 1) * 100` to the nearest integer. -/
def specTreatmentRate (t d : Nat) : ℤ := round ((t : ℚ) / ((max d 1 : ℕ) : ℚ) * 100)

theorem detectIntent_eq_runRules (s : Str) :
    detectIntent s = runRules detectIntentRules s := by
  unfold detectIntent runRules detectIntentRules
  simp only [firstMatch, ruleMatches, List.exists_mem_cons_iff,
    List.not_mem_nil, false_and, exists_false, or_false]

/-- `firstMatch` returns the intent of a firing rule no earlier rule of which
fires. -/
theorem firstMatch_first_wins (msg : Str) :
    ∀ (rules : List IntentRule) (i : Nat) (hi : i < rules.length),
      ruleMatches msg (rules.get ⟨i, hi⟩) →
      (∀ j (hj : j < i), ¬ ruleMatches msg (rules.get ⟨j, Nat.lt_trans hj hi⟩)) →
      firstMatch msg rules = (rules.get ⟨i, hi⟩).2
  | [], i, hi, _, _ => absurd hi (Nat.not_lt_zero i)
  | r :: rs, 0, _, hm, _ => by
      have hm' : ruleMatches msg r := hm
      simp only [firstMatch, List.get]
      rw [if_pos hm']
  | r :: rs, i + 1, hi, hm, he => by
      have h0 : ¬ ruleMatches msg r := he 0 (Nat.succ_pos i)
      simp only [firstMatch, List.get]
      rw [if_neg h0]
      exact firstMatch_first_wins msg rs i (Nat.lt_of_succ_lt_succ hi) hm
        (fun j hj => he (j + 1) (Nat.succ_lt_succ hj))

/-- `Char.ofNat` on a code point below the surrogate range reads back to the
same number. -/
theorem toNat_ofNat_valid (n : Nat) (h : n < 55296) : (Char.ofNat n).toNat = n := by
  unfold Char.ofNat
  rw [dif_pos]
  · rfl
  · exact Or.inl h

/-- ASCII lower-casing is idempotent: a second pass changes nothing. -/
theorem toLower_idem (c : Char) : Char.toLower (Char.toLower c) = Char.toLower c := by
  unfold Char.toLower
  by_cases h : c.toNat ≥ 65 ∧ c.toNat ≤ 90
  · rw [if_pos h]
    have h2 : (Char.ofNat (c.toNat + 32)).toNat = c.toNat + 32 :=
      toNat_ofNat_valid _ (by omega)
    rw [if_neg]
    rw [h2]
    omega
  · rw [if_neg h, if_neg h]

/-- Lower-casing a whole string is idempotent. -/
theorem lowerStr_idem (s : Str) : lowerStr (lowerStr s) = lowerStr s := by
  unfold lowerStr
  rw [List.map_map]
  exact List.map_congr_left fun c _ => toLower_idem c

/-- A string occurs in any string built around it. -/
theorem sIncludes_mid (a v b : Str) : sIncludes (a ++ v ++ b) v := ⟨a, b, rfl⟩

/-- A string is a substring of itself. -/
theorem sIncludes_refl (v : Str) : sIncludes v v := ⟨[], [], by simp⟩

/-- A suffix occurs as a substring. -/
theorem sIncludes_suffix (a v : Str) : sIncludes (a ++ v) v := ⟨a, [], by simp⟩

/-- Appending on the right preserves substring containment. -/
theorem sIncludes_append_right {s k : Str} (h : sIncludes s k) (t : Str) :
    sIncludes (s ++ t) k := by
  obtain ⟨x, y, hxy⟩ := h
  exact ⟨x, y ++ t, by rw [← hxy]; simp [List.append_assoc]⟩

/-- Appending on the left preserves substring containment. -/
theorem sIncludes_append_left {s k : Str} (h : sIncludes s k) (t : Str) :
    sIncludes (t ++ s) k := by
  obtain ⟨x, y, hxy⟩ := h
  exact ⟨t ++ x, y, by rw [← hxy]; simp [List.append_assoc]⟩

/-- An append whose left part is non-empty is non-empty. -/
theorem append_ne_nil_left {a : Str} (h : a ≠ []) (b : Str) : a ++ b ≠ [] := by
  cases a
  · exact absurd rfl h
  · simp

/-- The code's falsy-guarded denominator `diseasesDetected || 1` equals the
spec's `max(diseasesDetected, 1)`. -/
theorem denominator_eq_max (d : Nat) :
    (if d = 0 then 1 else d) = max d 1 := by
  rcases d with _ | n
  · rfl
  · rw [if_neg (Nat.succ_ne_zero n), Nat.max_eq_left (Nat.succ_le_succ (Nat.zero_le n))]

/-- The treatment-success ternary, positive branch: the code's figure is the
spec's rounded percentage rendered as a decimal numeral with `"%"`. -/
theorem treatmentRateFigure_pos (ctx : UserContext)
    (h : 0 < treatmentsAppliedOf ctx) :
    treatmentRateFigure ctx =
      natStr (specTreatmentRate (treatmentsAppliedOf ctx)
        (diseasesDetectedOf ctx)).toNat ++ enc "%" := by
  unfold treatmentRateFigure specTreatmentRate toFixed0
  rw [if_pos h, denominator_eq_max, round_eq]

/-- The treatment-success figure at the spec's test stats (4 detected, 2
applied) evaluates to the string `"50%"`. -/
theorem treatmentRateFigure_fifty :
    treatmentRateFigure treatmentStatsContext = enc "50" ++ enc "%" := by
  rw [treatmentRateFigure_pos treatmentStatsContext (by decide)]
  have ht : treatmentsAppliedOf treatmentStatsContext = 2 := by decide
  have hd : diseasesDetectedOf treatmentStatsContext = 4 := by decide
  rw [ht, hd]
  have hval : (specTreatmentRate 2 4).toNat = 50 := by
    unfold specTreatmentRate
    rw [round_eq]
    norm_num [Int.floor_eq_iff]
    rfl
  rw [hval]
  rfl

/-- The reply chain of `getBotResponse` is exactly `compose` applied to the
reply's branch intent. -/
theorem getBotResponse_eq_compose (message : Str) (ctx : UserContext) (rnd : Nat) :
    getBotResponse message ctx rnd = compose (replyIntent message) ctx rnd := by
  unfold getBotResponse replyIntent
  dsimp only
  split_ifs <;> rfl

/-- C1 (counterexample): the spec's eight-rule table disagrees with
`detectIntent` on concrete inputs: `"trend"` classifies to `trendInquiry`
under the spec table but to `generalQuery` under `detectIntent`, and
`"what can you do"` classifies to `helpRequest` under the spec table but to
`generalQuery` under `detectIntent`. -/
theorem detectIntent_spec_table_refuted :
    detectIntent (enc "trend") = Intent.generalQuery ∧
    specClassify (enc "trend") = Intent.trendInquiry ∧
    detectIntent (enc "trend") ≠ specClassify (enc "trend") ∧
    detectIntent (enc "what can you do") = Intent.generalQuery ∧
    specClassify (enc "what can you do") = Intent.helpRequest ∧
    detectIntent (enc "what can you do") ≠ specClassify (enc "what can you do") := by
  decide

/-- C1 (amended): `detectIntent` implements, under the spec's matching
policy (lower-case, ordered keyword rules, first any-keyword match wins,
`generalQuery` default), the seven-rule table `detectIntentRules`: the
spec's rules 1-5, then treatment/cure, then help — with no trend/statistics
rule and no `"what can you do"` keyword. -/
theorem detectIntent_implements_seven_rule_table (s : Str) :
    detectIntent s = runRules detectIntentRules s :=
  detectIntent_eq_runRules s

/-- C2 (code bug, evaluated at the failing input `"trend"`): the reply is
produced by the trend/statistics branch of `getBotResponse`, yet the bot
message logged by the handler is tagged with `detectIntent`'s result
`generalQuery`, and the reply is not the composition for any fallback
draw of the tagged intent. -/
theorem trend_reply_tagged_generalQuery :
    replyIntent (enc "trend") = Intent.trendInquiry ∧
    detectIntent (enc "trend") = Intent.generalQuery ∧
    (handleMessage ⟨[], 0⟩ (enc "trend") (enc "text") emptyContext 0).2 =
      compose Intent.trendInquiry emptyContext 0 ∧
    ((handleMessage ⟨[], 0⟩ (enc "trend") (enc "text") emptyContext 0).1.messages.map
      fun m => m.metadata.intent) = [none, some Intent.generalQuery] ∧
    (handleMessage ⟨[], 0⟩ (enc "trend") (enc "text") emptyContext 0).2 ≠
      compose Intent.generalQuery emptyContext 0 ∧
    (handleMessage ⟨[], 0⟩ (enc "trend") (enc "text") emptyContext 0).2 ≠
      compose Intent.generalQuery emptyContext 1 ∧
    (handleMessage ⟨[], 0⟩ (enc "trend") (enc "text") emptyContext 0).2 ≠
      compose Intent.generalQuery emptyContext 2 ∧
    (handleMessage ⟨[], 0⟩ (enc "trend") (enc "text") emptyContext 0).2 ≠
      compose Intent.generalQuery emptyContext 3 := by
  decide

/-- C9 (counterexample): in the handler's program order the reply is NOT
computed before the user-message append — that append comes first. -/
theorem reply_not_computed_before_user_append :
    ¬ (messageHandlerOrder.indexOf ChatEvent.computeBotResponse <
       messageHandlerOrder.indexOf ChatEvent.appendUserMessage) := by
  decide

/-- C9 (amended): the handler appends the user message, then computes the
reply, then appends the bot message: the reply is computed after the first
append and before the second. -/
theorem reply_computed_between_appends :
    messageHandlerOrder.indexOf ChatEvent.appendUserMessage <
      messageHandlerOrder.indexOf ChatEvent.computeBotResponse ∧
    messageHandlerOrder.indexOf ChatEvent.computeBotResponse <
      messageHandlerOrder.indexOf ChatEvent.appendBotMessage := by
  decide

/-- C10: `addMessage` preserves the invariant that `totalMessages` equals
the length of `messages`, appending the new entry, with the given sender,
text, type and metadata, at the end. -/
theorem addMessage_preserves_message_count (log : ChatLog)
    (sender message messageType : Str) (metadata : MessageMetadata)
    (_h : log.totalMessages = log.messages.length) :
    (log.addMessage sender message messageType metadata).totalMessages =
      (log.addMessage sender message messageType metadata).messages.length ∧
    (log.addMessage sender message messageType metadata).messages =
      log.messages ++ [⟨sender, message, messageType, metadata⟩] :=
  ⟨rfl, rfl⟩

/-- C10 (witness): the invariant theorem applied to the empty log and a
concrete user message. -/
theorem addMessage_preserves_message_count_witness :
    (ChatLog.mk [] 0).totalMessages = (ChatLog.mk [] 0).messages.length ∧
    ((ChatLog.mk [] 0).addMessage (enc "user") (enc "hi") (enc "text")
        noMetadata).totalMessages =
      ((ChatLog.mk [] 0).addMessage (enc "user") (enc "hi") (enc "text")
        noMetadata).messages.length :=
  ⟨rfl, (addMessage_preserves_message_count ⟨[], 0⟩ (enc "user") (enc "hi")
    (enc "text") noMetadata rfl).1⟩

/-- C3 (counterexample): for the empty context the fallback pool has exactly
4 templates, the location value is the default `"your area"`, and the
template at index 1 does not contain it (nor does the template at index 3
contain the crop value `"crops"`): not every fallback template interpolates
both values. -/
theorem fallback_template_missing_location :
    (contextualResponses emptyContext).length = 4 ∧
    locationOf emptyContext = enc "your area" ∧
    cropTypeOf emptyContext = enc "crops" ∧
    ¬ sIncludes ((contextualResponses emptyContext).getD 1 []) (enc "your area") ∧
    ¬ sIncludes ((contextualResponses emptyContext).getD 3 []) (enc "crops") := by
  decide

/-- C3 (amended): the fallback pool has exactly 4 templates, indexed by the
drawn value; template 0 interpolates both the crop and the location value,
templates 1 and 2 interpolate the crop value, and template 3 interpolates
the location value. -/
theorem fallback_pool_interpolation (ctx : UserContext) :
    (contextualResponses ctx).length = 4 ∧
    sIncludes ((contextualResponses ctx).getD 0 []) (cropTypeOf ctx) ∧
    sIncludes ((contextualResponses ctx).getD 0 []) (locationOf ctx) ∧
    sIncludes ((contextualResponses ctx).getD 1 []) (cropTypeOf ctx) ∧
    sIncludes ((contextualResponses ctx).getD 2 []) (cropTypeOf ctx) ∧
    sIncludes ((contextualResponses ctx).getD 3 []) (locationOf ctx) := by
  refine ⟨rfl, ?_, ?_, ?_, ?_, ?_⟩
  · exact sIncludes_append_right (sIncludes_append_right
      (sIncludes_append_right (sIncludes_suffix _ _) _) _) _
  · exact sIncludes_append_right (sIncludes_suffix _ _) _
  · exact sIncludes_append_right (sIncludes_suffix _ _) _
  · exact sIncludes_append_right (sIncludes_suffix _ _) _
  · exact sIncludes_append_right (sIncludes_suffix _ _) _

/-- C4: the treatment-success figure rendered by the treatment template is
the rounded percentage `treatmentsApplied / max(diseasesDetected, 1) * 100`
whenever treatments were applied, and the literal `"just getting started"`
when `treatmentsApplied` is 0 or absent; in particular for 4 diseases
detected and 2 treatments applied the treatment reply contains `"50%"`. -/
theorem treatment_rate_formula :
    (∀ ctx : UserContext, 0 < treatmentsAppliedOf ctx →
      treatmentRateFigure ctx =
        natStr (specTreatmentRate (treatmentsAppliedOf ctx)
          (diseasesDetectedOf ctx)).toNat ++ enc "%") ∧
    (∀ ctx : UserContext, treatmentsAppliedOf ctx = 0 →
      treatmentRateFigure ctx = enc "just getting started") ∧
    sIncludes (compose Intent.treatmentAdvice treatmentStatsContext 0)
      (enc "50%") := by
  refine ⟨fun ctx h => treatmentRateFigure_pos ctx h, ?_, ?_⟩
  · intro ctx h
    unfold treatmentRateFigure
    rw [if_neg (by omega)]
  · show sIncludes (treatmentResponse treatmentStatsContext) (enc "50%")
    unfold treatmentResponse
    rw [treatmentRateFigure_fifty,
      show enc "50%" = enc "50" ++ enc "%" from by decide]
    exact sIncludes_append_right (sIncludes_suffix _ _) _

/-- C4 (witness): at 4 diseases detected and 2 treatments applied the
formula theorem applies and the figure is the rendered rounded rate. -/
theorem treatment_rate_formula_witness :
    0 < treatmentsAppliedOf treatmentStatsContext ∧
    treatmentRateFigure treatmentStatsContext =
      natStr (specTreatmentRate (treatmentsAppliedOf treatmentStatsContext)
        (diseasesDetectedOf treatmentStatsContext)).toNat ++ enc "%" :=
  ⟨by decide, treatment_rate_formula.1 treatmentStatsContext (by decide)⟩

/-- C5: the detection-success figure of the disease template is the literal
`"92%"` whenever any disease was detected (regardless of the counts) and the
literal `"new - let's start building your success rate!"` when
`diseasesDetected` is 0 or absent; for the rice/Pune context with 0
detections the disease reply contains `"rice"`, `"Pune"` and
`"let's start building your success rate!"`. -/
theorem detection_rate_figures :
    (∀ ctx : UserContext, 0 < diseasesDetectedOf ctx →
      detectionRateFigure ctx = enc "92%") ∧
    (∀ ctx : UserContext, diseasesDetectedOf ctx = 0 →
      detectionRateFigure ctx =
        enc "new - let's start building your success rate!") ∧
    sIncludes (compose Intent.diseaseDetection ricePuneContext 0) (enc "rice") ∧
    sIncludes (compose Intent.diseaseDetection ricePuneContext 0) (enc "Pune") ∧
    sIncludes (compose Intent.diseaseDetection ricePuneContext 0)
      (enc "let's start building your success rate!") := by
  refine ⟨?_, ?_, by decide, by decide, by decide⟩
  · intro ctx h
    unfold detectionRateFigure
    rw [if_pos h]
  · intro ctx h
    unfold detectionRateFigure
    rw [if_neg (by omega)]

/-- C5 (witness): the figure theorem applied to a context with detections
(4) and to the rice/Pune context with none. -/
theorem detection_rate_figures_witness :
    (0 < diseasesDetectedOf treatmentStatsContext ∧
      detectionRateFigure treatmentStatsContext = enc "92%") ∧
    (diseasesDetectedOf ricePuneContext = 0 ∧
      detectionRateFigure ricePuneContext =
        enc "new - let's start building your success rate!") :=
  ⟨⟨by decide, detection_rate_figures.1 treatmentStatsContext (by decide)⟩,
   ⟨by decide, detection_rate_figures.2.1 ricePuneContext (by decide)⟩⟩

/-- C6: a rule of `detectIntent`'s table that fires while no earlier rule
fires decides the classification (the earlier rule always wins); in
particular `"my crop is sick, what's the weather?"` — `sick` of rule 1,
`weather` of rule 4 — classifies to `diseaseDetection`, and the empty
string, matching no rule, classifies to `generalQuery`. -/
theorem earlier_rule_wins :
    (∀ (s : Str) (i : Nat) (hi : i < detectIntentRules.length),
      ruleMatches (lowerStr s) (detectIntentRules.get ⟨i, hi⟩) →
      (∀ j (hj : j < i),
        ¬ ruleMatches (lowerStr s) (detectIntentRules.get ⟨j, Nat.lt_trans hj hi⟩)) →
      detectIntent s = (detectIntentRules.get ⟨i, hi⟩).2) ∧
    detectIntent (enc "my crop is sick, what's the weather?") =
      Intent.diseaseDetection ∧
    detectIntent (enc "") = Intent.generalQuery := by
  refine ⟨?_, by decide, by decide⟩
  intro s i hi hm he
  rw [detectIntent_eq_runRules]
  exact firstMatch_first_wins (lowerStr s) detectIntentRules i hi hm he

/-- C6 (witness): the precedence theorem applied to the sick/weather message
at rule index 0, whose earlier-rules condition is vacuous. -/
theorem earlier_rule_wins_witness :
    ruleMatches (lowerStr (enc "my crop is sick, what's the weather?"))
      (detectIntentRules.get ⟨0, by decide⟩) ∧
    detectIntent (enc "my crop is sick, what's the weather?") =
      (detectIntentRules.get ⟨0, by decide⟩).2 :=
  ⟨by decide, earlier_rule_wins.1 (enc "my crop is sick, what's the weather?") 0
    (by decide) (by decide) fun j hj => absurd hj (Nat.not_lt_zero j)⟩

/-- C7: classification is case-insensitive — it equals itself on the
lower-cased input for every string — and in particular agrees on
`"I need HELP"` and `"i need help"`; as a Lean function it is pure, so equal
inputs give equal results on every call. -/
theorem classify_case_insensitive :
    (∀ s : Str, detectIntent (lowerStr s) = detectIntent s) ∧
    detectIntent (enc "I need HELP") = detectIntent (enc "i need help") := by
  refine ⟨?_, by decide⟩
  intro s
  unfold detectIntent
  rw [lowerStr_idem]

/-- The fallback template drawn by any index below 4 is non-empty, for every
context. -/
theorem fallback_ne_nil (ctx : UserContext) (rnd : Nat) (h : rnd < 4) :
    (contextualResponses ctx).getD rnd [] ≠ [] := by
  interval_cases rnd
  · exact append_ne_nil_left (append_ne_nil_left (append_ne_nil_left
      (append_ne_nil_left (by decide) _) _) _) _
  · exact append_ne_nil_left (append_ne_nil_left (by decide) _) _
  · exact append_ne_nil_left (append_ne_nil_left (by decide) _) _
  · exact append_ne_nil_left (append_ne_nil_left (by decide) _) _

/-- C8: for every intent, every context and every fallback draw below 4 the
composed reply is a non-empty string (composition is a total function of its
arguments); at the empty context no reply contains the unresolved
placeholder marker, and the replies use the documented defaults `"crops"`,
`"your area"`, `"your irrigation system"`, `"detected soil"` and the count
0. -/
theorem compose_total_nonempty_defaults :
    (∀ (intent : Intent) (ctx : UserContext) (rnd : Nat), rnd < 4 →
      compose intent ctx rnd ≠ []) ∧
    (∀ (intent : Intent) (rnd : Nat), rnd < 4 →
      ¬ sIncludes (compose intent emptyContext rnd) (enc "$\x7b")) ∧
    sIncludes (compose Intent.diseaseDetection emptyContext 0) (enc "crops") ∧
    sIncludes (compose Intent.diseaseDetection emptyContext 0) (enc "your area") ∧
    sIncludes (compose Intent.irrigationAdvice emptyContext 0)
      (enc "your irrigation system") ∧
    sIncludes (compose Intent.fertilizerRecommendation emptyContext 0)
      (enc "detected soil") ∧
    sIncludes (compose Intent.helpRequest emptyContext 0)
      (enc "(0 analyzed so far)") := by
  refine ⟨?_, ?_, by decide, by decide, by decide, by decide, by decide⟩
  · intro intent ctx rnd h
    cases intent
    case generalQuery => exact fallback_ne_nil ctx rnd h
    all_goals (repeat' apply append_ne_nil_left)
    all_goals decide
  · intro intent rnd h
    cases intent <;> (interval_cases rnd <;> decide)

/-- C8 (witness): the totality theorem applied to the general-query intent,
the empty context and the concrete draw 0. -/
theorem compose_total_nonempty_defaults_witness :
    (0 : Nat) < 4 ∧
    compose Intent.generalQuery emptyContext 0 ≠ [] ∧
    ¬ sIncludes (compose Intent.generalQuery emptyContext 0) (enc "$\x7b") :=
  ⟨by decide,
   compose_total_nonempty_defaults.1 Intent.generalQuery emptyContext 0 (by decide),
   compose_total_nonempty_defaults.2.1 Intent.generalQuery 0 (by decide)⟩
